import Mathlib

/-!
Verification of the Vulcan default-mutations factory and the
MuiCheckboxGroup form control, shallowly embedded from
`src/packages/vulcan-ui-material/lib/components/forms/base-controls/MuiCheckboxGroup.jsx`
(the file concatenates the checkbox-group React component and the
`getDefaultMutations` CRUD factory).
-/

set_option autoImplicit false

namespace Vulcan

/-- Users are modelled by an opaque identifier; a `none` user is an absent
(`null`/`undefined`) user in the JavaScript source. -/
abbrev UserT := Nat

/-- Documents are modelled by an opaque identifier; a `none` document is an
absent (`null`/`undefined`) document. -/
abbrev DocT := Nat

/-- The ambient `Users` module of `meteor/vulcan:users` as consumed by the
factory: the authorization oracle `canDo` and the ownership relation `owns`.
The source calls `Users.canDo(user, action)` (which accepts a possibly absent
user) and `Users.owns(user, document)` (only reached when both are present). -/
structure Oracles where
  canDo : Option UserT → String → Bool
  owns : UserT → DocT → Bool

/-- A permission check function, as stored on a mutation descriptor:
`check(user, document) -> boolean`. -/
abbrev CheckFn := Option UserT → Option DocT → Bool

/-- The `options` parameter of `getDefaultMutations`. A JavaScript object
field that is absent reads as `undefined`, which is falsy, so every boolean
flag defaults to `false` and every override check to `none`. The source's
default argument `{ create: true, update: true, upsert: true, delete: true }`
is `defaultMutationOptions` below and applies only when the whole argument is
omitted. -/
structure MutationOptions where
  create : Bool := false
  update : Bool := false
  upsert : Bool := false
  delete : Bool := false
  newCheck : Option CheckFn := none
  editCheck : Option CheckFn := none
  removeCheck : Option CheckFn := none

/-- The default value of the `options` parameter in the source:
`options = { create: true, update: true, upsert: true, delete: true }`. -/
def defaultMutationOptions : MutationOptions :=
  { create := true, update := true, upsert := true, delete := true }

/-- The `check` of the create descriptor (source lines 175-181): an
`options.newCheck` override wins; otherwise `Users.canDo(user, typeName.toLowerCase() + ".new")`. -/
def createCheck (typeName : String) (opts : MutationOptions) (ora : Oracles) :
    CheckFn := fun user document =>
  match opts.newCheck with
  | some f => f user document
  | none => ora.canDo user (typeName.toLower ++ ".new")

/-- The `check` of the update descriptor (source lines 209-221): an
`options.editCheck` override wins; otherwise deny when `user` or `document`
is absent, and branch on ownership between `<type>.edit.own` and
`<type>.edit.all`. -/
def updateCheck (typeName : String) (opts : MutationOptions) (ora : Oracles) :
    CheckFn := fun user document =>
  match opts.editCheck with
  | some f => f user document
  | none =>
    match user, document with
    | some u, some d =>
      if ora.owns u d then ora.canDo (some u) (typeName.toLower ++ ".edit.own")
      else ora.canDo (some u) (typeName.toLower ++ ".edit.all")
    | _, _ => false

/-- The `check` of the delete descriptor (source lines 272-281): an
`options.removeCheck` override wins; otherwise deny when `user` or `document`
is absent, and branch on ownership between `<type>.remove.own` and
`<type>.remove.all`. -/
def deleteCheck (typeName : String) (opts : MutationOptions) (ora : Oracles) :
    CheckFn := fun user document =>
  match opts.removeCheck with
  | some f => f user document
  | none =>
    match user, document with
    | some u, some d =>
      if ora.owns u d then ora.canDo (some u) (typeName.toLower ++ ".remove.own")
      else ora.canDo (some u) (typeName.toLower ++ ".remove.all")
    | _, _ => false

/-- The selector of an update/delete/upsert input: `{ selector: { documentId } }`. -/
structure Selector where
  documentId : Nat
deriving DecidableEq, Repr

/-- Observable effects a mutation handler performs, in order: Storage
Connector reads (`Connectors.get`), the permission check
(`Utils.performCheck`), the persistence helpers (`createMutator`,
`updateMutator`, `deleteMutator`), and upsert's re-dispatch to the create or
update handler. -/
inductive Event where
  | connectorGetById : Nat → Event
  | connectorGetBySelector : Selector → Event
  | checkRun : Event
  | createMutatorCall : Event
  | updateMutatorCall : Nat → Event
  | deleteMutatorCall : Nat → Event
  | dispatchCreate : Event
  | dispatchUpdate : Event
deriving DecidableEq, Repr

/-- Errors a handler can raise at this layer. -/
inductive MutationError where
  | authorizationDenied
deriving DecidableEq, Repr

/-- The external world a handler interacts with: the Storage Connector
(`Connectors.get`, by identifier or by selector) and the results the
persistence helpers would produce. -/
structure Env where
  getById : Nat → Option DocT
  getBySelector : Selector → Option DocT
  createResult : DocT
  updateResult : DocT
  deleteResult : DocT

/-- Modelled from the spec: `Utils.performCheck` from `vulcan:lib` is not
under `src/`; per the spec, "a permission check returning false must cause
the operation to fail with an authorization error, carrying no side
effects", so it raises `authorizationDenied` exactly when the check denies. -/
def performCheck (check : CheckFn) (user : Option UserT)
    (document : Option DocT) : Except MutationError Unit :=
  if check user document then Except.ok () else Except.error MutationError.authorizationDenied

/-- The create handler (source lines 183-198): run the descriptor's check on
the current user and the incoming data, then (only on success) call
`createMutator`. It never touches the Storage Connector. Returns the trace
of effects together with the handler's outcome. -/
def createMutation (typeName : String) (opts : MutationOptions) (ora : Oracles)
    (env : Env) (currentUser : Option UserT) (data : Option DocT) :
    List Event × Except MutationError DocT :=
  match performCheck (createCheck typeName opts ora) currentUser data with
  | Except.error e => ([Event.checkRun], Except.error e)
  | Except.ok _ =>
    ([Event.checkRun, Event.createMutatorCall], Except.ok env.createResult)

/-- The update handler (source lines 223-244): fetch the whole unmodified
document from the database by `documentId`, then run the descriptor's check
on the current user and that document, then (only on success) call
`updateMutator` with the same `documentId`. -/
def updateMutation (typeName : String) (opts : MutationOptions) (ora : Oracles)
    (env : Env) (currentUser : Option UserT) (sel : Selector) :
    List Event × Except MutationError DocT :=
  let document := env.getById sel.documentId
  match performCheck (updateCheck typeName opts ora) currentUser document with
  | Except.error e =>
    ([Event.connectorGetById sel.documentId, Event.checkRun], Except.error e)
  | Except.ok _ =>
    ([Event.connectorGetById sel.documentId, Event.checkRun,
      Event.updateMutatorCall sel.documentId], Except.ok env.updateResult)

/-- The delete handler (source lines 283-299): fetch the document by
`documentId`, run the descriptor's check, then (only on success) call
`deleteMutator`. -/
def deleteMutation (typeName : String) (opts : MutationOptions) (ora : Oracles)
    (env : Env) (currentUser : Option UserT) (sel : Selector) :
    List Event × Except MutationError DocT :=
  let document := env.getById sel.documentId
  match performCheck (deleteCheck typeName opts ora) currentUser document with
  | Except.error e =>
    ([Event.connectorGetById sel.documentId, Event.checkRun], Except.error e)
  | Except.ok _ =>
    ([Event.connectorGetById sel.documentId, Event.checkRun,
      Event.deleteMutatorCall sel.documentId], Except.ok env.deleteResult)

/-- The upsert handler (source lines 251-263): probe for an existing
document by selector (`Connectors.get(collection, selector, { fields: { _id: 1 } })`);
if one exists re-dispatch to the update handler, otherwise to the create
handler. It performs no permission check of its own. -/
def upsertMutation (typeName : String) (opts : MutationOptions) (ora : Oracles)
    (env : Env) (currentUser : Option UserT) (sel : Selector)
    (data : Option DocT) : List Event × Except MutationError DocT :=
  match env.getBySelector sel with
  | some _ =>
    let r := updateMutation typeName opts ora env currentUser sel
    (Event.connectorGetBySelector sel :: Event.dispatchUpdate :: r.1, r.2)
  | none =>
    let r := createMutation typeName opts ora env currentUser data
    (Event.connectorGetBySelector sel :: Event.dispatchCreate :: r.1, r.2)

/-- One CRUD operation descriptor: a description string, the (optional)
permission check, and the handler. The handler is given the external world,
the current user, the selector and the data; create ignores the selector and
update/delete ignore the data, exactly as the source destructures its
`input`. -/
structure MutationDescriptor where
  description : String
  check : Option CheckFn
  mutation : Env → Option UserT → Selector → Option DocT →
    List Event × Except MutationError DocT

/-- The object returned by `getDefaultMutations`: up to four descriptors. -/
structure Mutations where
  create : Option MutationDescriptor
  update : Option MutationDescriptor
  upsert : Option MutationDescriptor
  delete : Option MutationDescriptor

/-- The create descriptor (source lines 171-199). -/
def createDescriptor (typeName : String) (opts : MutationOptions)
    (ora : Oracles) : MutationDescriptor :=
  { description := "Mutation for creating new " ++ typeName ++ " documents"
    check := some (createCheck typeName opts ora)
    mutation := fun env currentUser _sel data =>
      createMutation typeName opts ora env currentUser data }

/-- The update descriptor (source lines 205-244). -/
def updateDescriptor (typeName : String) (opts : MutationOptions)
    (ora : Oracles) : MutationDescriptor :=
  { description := "Mutation for updating a " ++ typeName ++ " document"
    check := some (updateCheck typeName opts ora)
    mutation := fun env currentUser sel _data =>
      updateMutation typeName opts ora env currentUser sel }

/-- The upsert descriptor (source lines 248-264): it has no `check` field. -/
def upsertDescriptor (typeName : String) (opts : MutationOptions)
    (ora : Oracles) : MutationDescriptor :=
  { description := "Mutation for upserting a " ++ typeName ++ " document"
    check := none
    mutation := fun env currentUser sel data =>
      upsertMutation typeName opts ora env currentUser sel data }

/-- The delete descriptor (source lines 269-299). -/
def deleteDescriptor (typeName : String) (opts : MutationOptions)
    (ora : Oracles) : MutationDescriptor :=
  { description := "Mutation for deleting a " ++ typeName ++ " document"
    check := some (deleteCheck typeName opts ora)
    mutation := fun env currentUser sel _data =>
      deleteMutation typeName opts ora env currentUser sel }

/-- `getDefaultMutations(typeName, options)` (source lines 162-303): build
the descriptor for each operation whose option flag is truthy, omit the
rest. -/
def getDefaultMutations (typeName : String) (opts : MutationOptions)
    (ora : Oracles) : Mutations :=
  { create := if opts.create then some (createDescriptor typeName opts ora) else none
    update := if opts.update then some (updateDescriptor typeName opts ora) else none
    upsert := if opts.upsert then some (upsertDescriptor typeName opts ora) else none
    delete := if opts.delete then some (deleteDescriptor typeName opts ora) else none }

/-- One named argument of a callback definition, with its documentation
string. -/
structure CallbackArg where
  argName : String
  argDescription : String
deriving DecidableEq, Repr

/-- A callback definition as passed to `registerCallback`. -/
structure CallbackDefinition where
  name : String
  arguments : List CallbackArg
  runs : String
  returns : Option String
  description : String
deriving DecidableEq, Repr

/-- `registerCollectionCallbacks(collectionName)` (source lines 305-421),
modelled as the ordered list of definitions it passes to `registerCallback`
(the process-wide registry receives exactly these entries). -/
def registerCollectionCallbacks (collectionName : String) :
    List CallbackDefinition :=
  let c := collectionName.toLower
  [ { name := c ++ ".create.validate"
      arguments :=
        [ ⟨"document", "The document being inserted"⟩,
          ⟨"currentUser", "The current user"⟩,
          ⟨"validationErrors", "An object that can be used to accumulate validation errors"⟩ ]
      runs := "sync"
      returns := some "document"
      description := "Validate a document before insertion (can be skipped when inserting directly on server)." },
    { name := c ++ ".create.before"
      arguments :=
        [ ⟨"document", "The document being inserted"⟩,
          ⟨"currentUser", "The current user"⟩ ]
      runs := "sync"
      returns := some "document"
      description := "Perform operations on a new document before it is inserted in the database." },
    { name := c ++ ".create.after"
      arguments :=
        [ ⟨"document", "The document being inserted"⟩,
          ⟨"currentUser", "The current user"⟩ ]
      runs := "sync"
      returns := some "document"
      description := "Perform operations on a new document after it is inserted in the database but *before* the mutation returns it." },
    { name := c ++ ".create.async"
      arguments :=
        [ ⟨"document", "The document being inserted"⟩,
          ⟨"currentUser", "The current user"⟩,
          ⟨"collection", "The collection the document belongs to"⟩ ]
      runs := "async"
      returns := none
      description := "Perform operations on a new document after it is inserted in the database asynchronously." },
    { name := c ++ ".update.validate"
      arguments :=
        [ ⟨"modifier", "The MongoDB modifier"⟩,
          ⟨"document", "The document being edited"⟩,
          ⟨"currentUser", "The current user"⟩,
          ⟨"validationErrors", "An object that can be used to accumulate validation errors"⟩ ]
      runs := "sync"
      returns := some "modifier"
      description := "Validate a document before update (can be skipped when updating directly on server)." },
    { name := c ++ ".update.before"
      arguments :=
        [ ⟨"modifier", "The MongoDB modifier"⟩,
          ⟨"document", "The document being edited"⟩,
          ⟨"currentUser", "The current user"⟩ ]
      runs := "sync"
      returns := some "modifier"
      description := "Perform operations on a document before it is updated in the database." },
    { name := c ++ ".update.after"
      arguments :=
        [ ⟨"modifier", "The MongoDB modifier"⟩,
          ⟨"document", "The document being edited"⟩,
          ⟨"currentUser", "The current user"⟩ ]
      runs := "sync"
      returns := some "document"
      description := "Perform operations on a document after it is updated in the database but *before* the mutation returns it." },
    { name := c ++ ".update.async"
      arguments :=
        [ ⟨"newDocument", "The document after the edit"⟩,
          ⟨"document", "The document before the edit"⟩,
          ⟨"currentUser", "The current user"⟩,
          ⟨"collection", "The collection the document belongs to"⟩ ]
      runs := "async"
      returns := none
      description := "Perform operations on a document after it is updated in the database asynchronously." },
    { name := c ++ ".delete.validate"
      arguments :=
        [ ⟨"document", "The document being removed"⟩,
          ⟨"currentUser", "The current user"⟩,
          ⟨"validationErrors", "An object that can be used to accumulate validation errors"⟩ ]
      runs := "sync"
      returns := some "document"
      description := "Validate a document before removal (can be skipped when removing directly on server)." },
    { name := c ++ ".delete.before"
      arguments :=
        [ ⟨"document", "The document being removed"⟩,
          ⟨"currentUser", "The current user"⟩ ]
      runs := "sync"
      returns := none
      description := "Perform operations on a document before it is removed from the database." },
    { name := c ++ ".delete.async"
      arguments :=
        [ ⟨"document", "The document being removed"⟩,
          ⟨"currentUser", "The current user"⟩,
          ⟨"collection", "The collection the document belongs to"⟩ ]
      runs := "async"
      returns := none
      description := "Perform operations on a document after it is removed from the database asynchronously." } ]

/-- The eleven name suffixes of the callback definitions the source
registers, in registration order. -/
def callbackNameSuffixes : List String :=
  [".create.validate", ".create.before", ".create.after", ".create.async",
   ".update.validate", ".update.before", ".update.after", ".update.async",
   ".delete.validate", ".delete.before", ".delete.async"]

/-- A concrete authorization oracle used to instantiate theorems: user `u`
owns document `d` when their identifiers agree, and `canDo` grants the two
listed actions to present users. -/
def oraW : Oracles :=
  { canDo := fun u a =>
      u.isSome && ((a == "posts.edit.own") || (a == "posts.remove.all"))
    owns := fun u d => u == d }

/-- A second concrete oracle, disagreeing with `oraW` everywhere, used to
instantiate oracle-independence statements. -/
def oraW2 : Oracles :=
  { canDo := fun u a => !(u.isSome && ((a == "posts.edit.own") || (a == "posts.remove.all")))
    owns := fun u d => !(u == d) }

/-- A concrete oracle that denies every action. -/
def oraDenyW : Oracles :=
  { canDo := fun _ _ => false, owns := fun _ _ => false }

/-- A concrete external world: only the document with identifier `1`
exists. -/
def envW : Env :=
  { getById := fun n => if n == 1 then some 10 else none
    getBySelector := fun s => if s.documentId == 1 then some 10 else none
    createResult := 100
    updateResult := 101
    deleteResult := 102 }

/-- A concrete options object configuring all three override checks. -/
def optsOverrideW : MutationOptions :=
  { create := true, update := true, upsert := true, delete := true
    newCheck := some (fun u _ => u.isSome)
    editCheck := some (fun _ d => d.isSome)
    removeCheck := some (fun _ _ => false) }

end Vulcan

namespace MuiCheckboxGroup

/-- One entry of the `options` prop of the checkbox group: a value, a label
and a disabled flag. -/
structure CheckboxOption where
  value : String
  label : String
  disabled : Bool
deriving DecidableEq, Repr

/-- The props of the component that `renderElement` reads: the form's
current value (the array of selected option values) and the option list. -/
structure CheckboxGroupProps where
  value : List String
  options : List CheckboxOption
deriving DecidableEq, Repr

/-- JavaScript `haystack.indexOf(needle)` on strings, over the underlying
character lists: the least index at which `needle` occurs in `haystack`, or
`-1`; the empty needle occurs at index 0. -/
def indexOfAux (needle : List Char) : List Char → Nat → Int
  | [], i => if needle = [] then Int.ofNat i else -1
  | c :: rest, i =>
    if needle.isPrefixOf (c :: rest) then Int.ofNat i
    else indexOfAux needle rest (i + 1)

/-- JavaScript `String.prototype.indexOf`. -/
def jsIndexOf (haystack needle : String) : Int :=
  indexOfAux needle.data haystack.data 0

/-- The checked state computed for one option in `renderElement` (source
lines 100-101): `let value = checkbox.value; let checked = (value.indexOf(value) !== -1);`.
The `let` shadows every outer `value`, so the form's current value in the
props is never consulted. -/
def renderedChecked (_props : CheckboxGroupProps) (checkbox : CheckboxOption) :
    Bool :=
  let value := checkbox.value
  decide (jsIndexOf value value ≠ -1)

/-- The maximum label length of the option list as the source computes it
(source lines 122-123): `options.reduce((max, option) => option.label.length > max ? option.label.length : max, 0)`. -/
def maxLength (options : List CheckboxOption) : Nat :=
  options.foldl
    (fun mx option =>
      if option.label.length > mx then option.label.length else mx) 0

/-- The column layout class (source line 125):
`maxLength < 20 ? 'threeColumn' : maxLength < 30 ? 'twoColumn' : ''`. -/
def columnClass (options : List CheckboxOption) : String :=
  if maxLength options < 20 then "threeColumn"
  else if maxLength options < 30 then "twoColumn"
  else ""

/-- The spec's reading of the layout rule: the maximum label length over all
options, `0` for an empty list, taken with the list-maximum operation. -/
def specMaxLabelLength (options : List CheckboxOption) : Nat :=
  (options.map (fun option => option.label.length)).foldr Nat.max 0

end MuiCheckboxGroup

namespace Vulcan

/-- Appending on the left of a string is cancellative. -/
theorem string_append_left_cancel {a b c : String} (h : a ++ b = a ++ c) :
    b = c := by
  apply String.ext
  have hd := congrArg String.data h
  rw [String.data_append, String.data_append] at hd
  exact List.append_cancel_left hd

/-- C1: for the update and delete descriptors produced by
`getDefaultMutations` with no override check configured, `check` denies when
the user or the document is absent, and otherwise grants exactly when
(`owns` and `canDo <type>.edit.own`) or (not `owns` and
`canDo <type>.edit.all`), with `remove.own`/`remove.all` for delete. -/
theorem default_update_delete_check_characterization (T : String)
    (opts : MutationOptions) (ora : Oracles)
    (hu : opts.update = true) (hd : opts.delete = true)
    (hE : opts.editCheck = none) (hR : opts.removeCheck = none) :
    (getDefaultMutations T opts ora).update = some (updateDescriptor T opts ora) ∧
    (updateDescriptor T opts ora).check = some (updateCheck T opts ora) ∧
    (getDefaultMutations T opts ora).delete = some (deleteDescriptor T opts ora) ∧
    (deleteDescriptor T opts ora).check = some (deleteCheck T opts ora) ∧
    (∀ d, updateCheck T opts ora none d = false) ∧
    (∀ u, updateCheck T opts ora u none = false) ∧
    (∀ u d, updateCheck T opts ora (some u) (some d) =
      ((ora.owns u d && ora.canDo (some u) (T.toLower ++ ".edit.own")) ||
       (!ora.owns u d && ora.canDo (some u) (T.toLower ++ ".edit.all")))) ∧
    (∀ d, deleteCheck T opts ora none d = false) ∧
    (∀ u, deleteCheck T opts ora u none = false) ∧
    (∀ u d, deleteCheck T opts ora (some u) (some d) =
      ((ora.owns u d && ora.canDo (some u) (T.toLower ++ ".remove.own")) ||
       (!ora.owns u d && ora.canDo (some u) (T.toLower ++ ".remove.all")))) := by
  refine ⟨by simp [getDefaultMutations, hu], rfl,
    by simp [getDefaultMutations, hd], rfl, ?_, ?_, ?_, ?_, ?_, ?_⟩
  · intro d
    simp [updateCheck, hE]
  · intro u
    cases u <;> simp [updateCheck, hE]
  · intro u d
    cases h : ora.owns u d <;> simp [updateCheck, hE, h]
  · intro d
    simp [deleteCheck, hR]
  · intro u
    cases u <;> simp [deleteCheck, hR]
  · intro u d
    cases h : ora.owns u d <;> simp [deleteCheck, hR, h]

/-- Witness for C1 at type name "Posts", the default options and the
concrete oracle `oraW`. -/
theorem default_update_delete_check_characterization_witness :
    (getDefaultMutations "Posts" defaultMutationOptions oraW).update
      = some (updateDescriptor "Posts" defaultMutationOptions oraW) ∧
    updateCheck "Posts" defaultMutationOptions oraW none (some 7) = false ∧
    updateCheck "Posts" defaultMutationOptions oraW (some 3) (some 3) =
      ((oraW.owns 3 3 && oraW.canDo (some 3) ("Posts".toLower ++ ".edit.own")) ||
       (!oraW.owns 3 3 && oraW.canDo (some 3) ("Posts".toLower ++ ".edit.all"))) ∧
    deleteCheck "Posts" defaultMutationOptions oraW (some 3) (some 4) =
      ((oraW.owns 3 4 && oraW.canDo (some 3) ("Posts".toLower ++ ".remove.own")) ||
       (!oraW.owns 3 4 && oraW.canDo (some 3) ("Posts".toLower ++ ".remove.all"))) := by
  have h := default_update_delete_check_characterization "Posts"
    defaultMutationOptions oraW rfl rfl rfl rfl
  obtain ⟨h1, -, -, -, h5, -, h7, -, -, h10⟩ := h
  exact ⟨h1, h5 (some 7), h7 3 3, h10 3 4⟩

/-- C2: when an override check is configured (`newCheck` for create,
`editCheck` for update, `removeCheck` for delete), the descriptor's check
returns exactly the override's result, and the decision does not depend on
the ownership relation or the authorization oracle. -/
theorem override_check_determines_access (T : String) (opts : MutationOptions)
    (ora ora' : Oracles) (u : Option UserT) (d : Option DocT)
    (fC fU fD : CheckFn)
    (hN : opts.newCheck = some fC) (hE : opts.editCheck = some fU)
    (hR : opts.removeCheck = some fD) :
    createCheck T opts ora u d = fC u d ∧
    updateCheck T opts ora u d = fU u d ∧
    deleteCheck T opts ora u d = fD u d ∧
    createCheck T opts ora u d = createCheck T opts ora' u d ∧
    updateCheck T opts ora u d = updateCheck T opts ora' u d ∧
    deleteCheck T opts ora u d = deleteCheck T opts ora' u d := by
  simp [createCheck, updateCheck, deleteCheck, hN, hE, hR]

/-- Witness for C2 at the concrete overriding options `optsOverrideW` and
the two disagreeing oracles `oraW` and `oraW2`. -/
theorem override_check_determines_access_witness :
    createCheck "Posts" optsOverrideW oraW (some 3) none = (some 3 : Option UserT).isSome ∧
    updateCheck "Posts" optsOverrideW oraW (some 3) none = (none : Option DocT).isSome ∧
    deleteCheck "Posts" optsOverrideW oraW (some 3) none = false ∧
    updateCheck "Posts" optsOverrideW oraW (some 3) none
      = updateCheck "Posts" optsOverrideW oraW2 (some 3) none := by
  have h := override_check_determines_access "Posts" optsOverrideW oraW oraW2
    (some 3) none (fun u _ => u.isSome) (fun _ d => d.isSome) (fun _ _ => false)
    rfl rfl rfl
  exact ⟨h.1, h.2.1, h.2.2.1, h.2.2.2.2.1⟩

/-- C3: when a handler's permission check fails, the handler raises an
authorization error and its effect trace contains no persistence-helper
call; the denied create trace is exactly the check run, so create makes no
Storage Connector call at all. -/
theorem denied_check_no_persistence (T : String) (opts : MutationOptions)
    (ora : Oracles) (env : Env) (cu : Option UserT) (sel : Selector)
    (data : Option DocT)
    (hc : createCheck T opts ora cu data = false)
    (hu : updateCheck T opts ora cu (env.getById sel.documentId) = false)
    (hd : deleteCheck T opts ora cu (env.getById sel.documentId) = false) :
    createMutation T opts ora env cu data
      = ([Event.checkRun], Except.error MutationError.authorizationDenied) ∧
    updateMutation T opts ora env cu sel
      = ([Event.connectorGetById sel.documentId, Event.checkRun],
         Except.error MutationError.authorizationDenied) ∧
    deleteMutation T opts ora env cu sel
      = ([Event.connectorGetById sel.documentId, Event.checkRun],
         Except.error MutationError.authorizationDenied) := by
  refine ⟨?_, ?_, ?_⟩
  · simp [createMutation, performCheck, hc]
  · simp [updateMutation, performCheck, hu]
  · simp [deleteMutation, performCheck, hd]

/-- Witness for C3 with an absent user and the all-denying oracle: all three
checks fail and no persistence call appears in any trace. -/
theorem denied_check_no_persistence_witness :
    createCheck "Posts" defaultMutationOptions oraDenyW none (some 5) = false ∧
    createMutation "Posts" defaultMutationOptions oraDenyW envW none (some 5)
      = ([Event.checkRun], Except.error MutationError.authorizationDenied) ∧
    updateMutation "Posts" defaultMutationOptions oraDenyW envW none ⟨1⟩
      = ([Event.connectorGetById 1, Event.checkRun],
         Except.error MutationError.authorizationDenied) ∧
    deleteMutation "Posts" defaultMutationOptions oraDenyW envW none ⟨1⟩
      = ([Event.connectorGetById 1, Event.checkRun],
         Except.error MutationError.authorizationDenied) := by
  have h := denied_check_no_persistence "Posts" defaultMutationOptions oraDenyW
    envW none ⟨1⟩ (some 5) rfl rfl rfl
  exact ⟨rfl, h.1, h.2.1, h.2.2⟩

/-- C5: the update and delete handlers read the document by identifier from
the Storage Connector strictly before running the permission check, and when
the read returns nothing the default check denies, so the handler stops with
an authorization error and never reaches the persistence helper. -/
theorem fetch_before_check_and_missing_denied (T : String)
    (opts : MutationOptions) (ora : Oracles) (env : Env) (cu : Option UserT)
    (sel : Selector)
    (hE : opts.editCheck = none) (hR : opts.removeCheck = none) :
    (∃ rest, (updateMutation T opts ora env cu sel).1
      = Event.connectorGetById sel.documentId :: Event.checkRun :: rest) ∧
    (∃ rest, (deleteMutation T opts ora env cu sel).1
      = Event.connectorGetById sel.documentId :: Event.checkRun :: rest) ∧
    (env.getById sel.documentId = none →
      updateMutation T opts ora env cu sel
        = ([Event.connectorGetById sel.documentId, Event.checkRun],
           Except.error MutationError.authorizationDenied) ∧
      deleteMutation T opts ora env cu sel
        = ([Event.connectorGetById sel.documentId, Event.checkRun],
           Except.error MutationError.authorizationDenied)) := by
  refine ⟨?_, ?_, ?_⟩
  · cases h : performCheck (updateCheck T opts ora) cu (env.getById sel.documentId) with
    | error e => exact ⟨[], by simp [updateMutation, h]⟩
    | ok _ => exact ⟨[Event.updateMutatorCall sel.documentId], by simp [updateMutation, h]⟩
  · cases h : performCheck (deleteCheck T opts ora) cu (env.getById sel.documentId) with
    | error e => exact ⟨[], by simp [deleteMutation, h]⟩
    | ok _ => exact ⟨[Event.deleteMutatorCall sel.documentId], by simp [deleteMutation, h]⟩
  · intro hnone
    have hcu : updateCheck T opts ora cu none = false := by
      cases cu <;> simp [updateCheck, hE]
    have hcd : deleteCheck T opts ora cu none = false := by
      cases cu <;> simp [deleteCheck, hR]
    constructor
    · simp [updateMutation, performCheck, hnone, hcu]
    · simp [deleteMutation, performCheck, hnone, hcd]

/-- Witness for C5 at the missing document with identifier 2 in the concrete
world `envW`. -/
theorem fetch_before_check_and_missing_denied_witness :
    envW.getById 2 = none ∧
    (∃ rest, (updateMutation "Posts" defaultMutationOptions oraW envW (some 1) ⟨2⟩).1
      = Event.connectorGetById 2 :: Event.checkRun :: rest) ∧
    updateMutation "Posts" defaultMutationOptions oraW envW (some 1) ⟨2⟩
      = ([Event.connectorGetById 2, Event.checkRun],
         Except.error MutationError.authorizationDenied) ∧
    deleteMutation "Posts" defaultMutationOptions oraW envW (some 1) ⟨2⟩
      = ([Event.connectorGetById 2, Event.checkRun],
         Except.error MutationError.authorizationDenied) := by
  have h := fetch_before_check_and_missing_denied "Posts" defaultMutationOptions
    oraW envW (some 1) ⟨2⟩ rfl rfl
  have hmiss := h.2.2 rfl
  exact ⟨rfl, h.1, hmiss.1, hmiss.2⟩

/-- The create handler's trace is the check alone or the check followed by
the `createMutator` call. -/
theorem createMutation_trace_forms (T : String) (opts : MutationOptions)
    (ora : Oracles) (env : Env) (cu : Option UserT) (data : Option DocT) :
    (createMutation T opts ora env cu data).1 = [Event.checkRun] ∨
    (createMutation T opts ora env cu data).1
      = [Event.checkRun, Event.createMutatorCall] := by
  cases h : performCheck (createCheck T opts ora) cu data with
  | error e => exact Or.inl (by simp [createMutation, h])
  | ok _ => exact Or.inr (by simp [createMutation, h])

/-- The update handler's trace is the fetch and the check, optionally
followed by the `updateMutator` call. -/
theorem updateMutation_trace_forms (T : String) (opts : MutationOptions)
    (ora : Oracles) (env : Env) (cu : Option UserT) (sel : Selector) :
    (updateMutation T opts ora env cu sel).1
      = [Event.connectorGetById sel.documentId, Event.checkRun] ∨
    (updateMutation T opts ora env cu sel).1
      = [Event.connectorGetById sel.documentId, Event.checkRun,
         Event.updateMutatorCall sel.documentId] := by
  cases h : performCheck (updateCheck T opts ora) cu (env.getById sel.documentId) with
  | error e => exact Or.inl (by simp [updateMutation, h])
  | ok _ => exact Or.inr (by simp [updateMutation, h])

/-- C4: the upsert descriptor carries no check of its own, and its handler
probes the Storage Connector by selector and re-dispatches to exactly one of
the update handler (document found) or the create handler (no document) —
never both, never neither. -/
theorem upsert_dispatches_exactly_one (T : String) (opts : MutationOptions)
    (ora : Oracles) (env : Env) (cu : Option UserT) (sel : Selector)
    (data : Option DocT) (hup : opts.upsert = true) :
    (getDefaultMutations T opts ora).upsert = some (upsertDescriptor T opts ora) ∧
    (upsertDescriptor T opts ora).check = none ∧
    upsertMutation T opts ora env cu sel data =
      (match env.getBySelector sel with
       | some _ =>
         (Event.connectorGetBySelector sel :: Event.dispatchUpdate ::
            (updateMutation T opts ora env cu sel).1,
          (updateMutation T opts ora env cu sel).2)
       | none =>
         (Event.connectorGetBySelector sel :: Event.dispatchCreate ::
            (createMutation T opts ora env cu data).1,
          (createMutation T opts ora env cu data).2)) ∧
    ((Event.dispatchUpdate ∈ (upsertMutation T opts ora env cu sel data).1 ∧
      Event.dispatchCreate ∉ (upsertMutation T opts ora env cu sel data).1) ∨
     (Event.dispatchCreate ∈ (upsertMutation T opts ora env cu sel data).1 ∧
      Event.dispatchUpdate ∉ (upsertMutation T opts ora env cu sel data).1)) := by
  refine ⟨by simp [getDefaultMutations, hup], rfl, ?_, ?_⟩
  · cases hsel : env.getBySelector sel <;> simp [upsertMutation, hsel]
  · cases hsel : env.getBySelector sel with
    | none =>
      refine Or.inr ?_
      rcases createMutation_trace_forms T opts ora env cu data with h | h <;>
        simp [upsertMutation, hsel, h]
    | some d =>
      refine Or.inl ?_
      rcases updateMutation_trace_forms T opts ora env cu sel with h | h <;>
        simp [upsertMutation, hsel, h]

/-- Witness for C4 at the concrete world `envW` where the selector for
document 1 finds a document, so upsert dispatches to update. -/
theorem upsert_dispatches_exactly_one_witness :
    defaultMutationOptions.upsert = true ∧
    (upsertDescriptor "Posts" defaultMutationOptions oraW).check = none ∧
    upsertMutation "Posts" defaultMutationOptions oraW envW (some 1) ⟨1⟩ (some 5)
      = (Event.connectorGetBySelector ⟨1⟩ :: Event.dispatchUpdate ::
           (updateMutation "Posts" defaultMutationOptions oraW envW (some 1) ⟨1⟩).1,
         (updateMutation "Posts" defaultMutationOptions oraW envW (some 1) ⟨1⟩).2) := by
  have h := upsert_dispatches_exactly_one "Posts" defaultMutationOptions oraW
    envW (some 1) ⟨1⟩ (some 5) rfl
  refine ⟨rfl, h.2.1, ?_⟩
  rw [h.2.2.1]
  rfl

/-- C7: `getDefaultMutations` returns exactly the descriptors whose option
flag is set; with the default options object all four are present. -/
theorem mutations_follow_option_flags (T : String) (opts : MutationOptions)
    (ora : Oracles) :
    (getDefaultMutations T opts ora).create.isSome = opts.create ∧
    (getDefaultMutations T opts ora).update.isSome = opts.update ∧
    (getDefaultMutations T opts ora).upsert.isSome = opts.upsert ∧
    (getDefaultMutations T opts ora).delete.isSome = opts.delete ∧
    (getDefaultMutations T defaultMutationOptions ora).create.isSome = true ∧
    (getDefaultMutations T defaultMutationOptions ora).update.isSome = true ∧
    (getDefaultMutations T defaultMutationOptions ora).upsert.isSome = true ∧
    (getDefaultMutations T defaultMutationOptions ora).delete.isSome = true := by
  refine ⟨?_, ?_, ?_, ?_, rfl, rfl, rfl, rfl⟩
  · cases h : opts.create <;> simp [getDefaultMutations, h]
  · cases h : opts.update <;> simp [getDefaultMutations, h]
  · cases h : opts.upsert <;> simp [getDefaultMutations, h]
  · cases h : opts.delete <;> simp [getDefaultMutations, h]

/-- C10: the default options object is a default for the whole parameter;
an options object carrying only `create := true` yields the create
descriptor and nothing else, because its absent flags read as false. -/
theorem absent_option_flags_read_false (T : String) (ora : Oracles) :
    (getDefaultMutations T { create := true } ora).create
      = some (createDescriptor T { create := true } ora) ∧
    (getDefaultMutations T { create := true } ora).update = none ∧
    (getDefaultMutations T { create := true } ora).upsert = none ∧
    (getDefaultMutations T { create := true } ora).delete = none :=
  ⟨rfl, rfl, rfl, rfl⟩

/-- C6 fails on the code: for the entity type "Posts" the registration emits
11 definitions, not 12, and no `posts.delete.after` definition is among
them. -/
theorem twelve_callbacks_counterexample :
    ¬((registerCollectionCallbacks "Posts").length = 12 ∧
      "posts.delete.after" ∈
        (registerCollectionCallbacks "Posts").map (fun c => c.name)) := by
  decide

/-- C6 amended: for every entity type name, `registerCollectionCallbacks`
registers exactly 11 uniquely named callback definitions — all of
{create, update, delete} × {validate, before, after} except `delete.after`,
plus one async variant per action — each named
`<lowercased-type>.<action>.<phase>` with the documented run mode and
argument names. -/
theorem eleven_callbacks_registered (T : String) :
    (registerCollectionCallbacks T).map (fun c => (c.name, c.runs)) =
      [(T.toLower ++ ".create.validate", "sync"),
       (T.toLower ++ ".create.before", "sync"),
       (T.toLower ++ ".create.after", "sync"),
       (T.toLower ++ ".create.async", "async"),
       (T.toLower ++ ".update.validate", "sync"),
       (T.toLower ++ ".update.before", "sync"),
       (T.toLower ++ ".update.after", "sync"),
       (T.toLower ++ ".update.async", "async"),
       (T.toLower ++ ".delete.validate", "sync"),
       (T.toLower ++ ".delete.before", "sync"),
       (T.toLower ++ ".delete.async", "async")] ∧
    (registerCollectionCallbacks T).map (fun c => c.arguments.map (fun a => a.argName)) =
      [["document", "currentUser", "validationErrors"],
       ["document", "currentUser"],
       ["document", "currentUser"],
       ["document", "currentUser", "collection"],
       ["modifier", "document", "currentUser", "validationErrors"],
       ["modifier", "document", "currentUser"],
       ["modifier", "document", "currentUser"],
       ["newDocument", "document", "currentUser", "collection"],
       ["document", "currentUser", "validationErrors"],
       ["document", "currentUser"],
       ["document", "currentUser", "collection"]] ∧
    (registerCollectionCallbacks T).length = 11 ∧
    ((registerCollectionCallbacks T).map (fun c => c.name)).Nodup := by
  refine ⟨rfl, rfl, rfl, ?_⟩
  have hmap : (registerCollectionCallbacks T).map (fun c => c.name)
      = callbackNameSuffixes.map (fun s => T.toLower ++ s) := rfl
  rw [hmap]
  have hinj : Function.Injective (fun s => T.toLower ++ s) :=
    fun _ _ h => string_append_left_cancel h
  exact List.Nodup.map hinj (by decide)

end Vulcan

namespace MuiCheckboxGroup

/-- Every list is a `isPrefixOf` of itself. -/
theorem isPrefixOf_self (l : List Char) : l.isPrefixOf l = true := by
  induction l with
  | nil => rfl
  | cons c rest ih => simp [List.isPrefixOf, ih]

/-- JavaScript `s.indexOf(s)` is `0` for every string `s`, the empty string
included. -/
theorem jsIndexOf_self (s : String) : jsIndexOf s s = 0 := by
  unfold jsIndexOf
  cases h : s.data with
  | nil => simp [indexOfAux]
  | cons c rest => simp [indexOfAux, isPrefixOf_self]

/-- C9: because the source computes `value.indexOf(value)` on the option's
own (shadowed) value, every rendered control is checked, whatever the
form's current value is. -/
theorem every_control_rendered_checked (props : CheckboxGroupProps)
    (checkbox : CheckboxOption) : renderedChecked props checkbox = true := by
  simp [renderedChecked, jsIndexOf_self]

/-- A smaller element is absorbed when joined under a maximum. -/
theorem nat_max_absorb {a b c : Nat} (h : b ≤ a) :
    Nat.max a c = Nat.max a (Nat.max b c) := by
  simp only [Nat.max_def]
  repeat' split
  all_goals omega

/-- A maximum absorbs a smaller element joined on its left. -/
theorem nat_max_absorb_left {a b c : Nat} (h : a ≤ b) :
    Nat.max a (Nat.max b c) = Nat.max b c := by
  simp only [Nat.max_def]
  repeat' split
  all_goals omega

/-- The source's `reduce` over labels computes the maximum label length. -/
theorem maxLength_foldl (options : List CheckboxOption) (acc : Nat) :
    options.foldl
      (fun mx option =>
        if option.label.length > mx then option.label.length else mx) acc
      = Nat.max acc ((options.map (fun o => o.label.length)).foldr Nat.max 0) := by
  induction options generalizing acc with
  | nil => simp
  | cons o os ih =>
    simp only [List.foldl_cons, List.map_cons, List.foldr_cons, ih]
    rcases Nat.lt_or_ge acc o.label.length with h | h
    · rw [if_pos h]
      exact (nat_max_absorb_left (Nat.le_of_lt h)).symm
    · rw [if_neg (by omega)]
      exact nat_max_absorb h

/-- C8: the column layout class is a function of the maximum label length
alone: `threeColumn` below 20, `twoColumn` from 20 up to below 30, no column
class otherwise. -/
theorem column_class_from_max_label_length (options : List CheckboxOption) :
    columnClass options =
      (if specMaxLabelLength options < 20 then "threeColumn"
       else if specMaxLabelLength options < 30 then "twoColumn"
       else "") := by
  have h : maxLength options = specMaxLabelLength options := by
    unfold maxLength specMaxLabelLength
    simpa using maxLength_foldl options 0
  rw [columnClass, h]

end MuiCheckboxGroup
